import Mathlib

/-!
Shallow embedding of the w3af ClamAV grep plugin
(src/plugins/grep/clamav.py) and proofs about its scan-dispatch and
deduplication behaviour.

Modelling choices:
* Python exceptions that escape a function are modelled by an
  `Option ScanError` component of the result (`none` = normal return).
* The clamd daemon response dict is modelled by `DaemonResponse`:
  an optional value for the key named stream, whose value (a Python
  tuple of strings or None) is a list of `Option String`.
* `_parse_scan_result` returns `Option ScanResult`: `none` models the
  except branch, which logs and falls off the end of the function,
  returning Python None.
* The `ScalableBloomFilter` is modelled by the exact list of added
  elements plus an environment oracle `falsePos` for spurious hits:
  membership reports `true` on every added element (no false
  negatives) and additionally wherever the oracle says so.
* Observable side effects of one `grep` call are collected in
  `Effects`: the number of daemon health checks performed, the number
  of dedup-filter membership tests, the URLs submitted to the daemon
  via instream, and the `(category, Info)` pairs appended to the
  knowledge base.
-/

namespace Clamav

/-- An HTTP request as seen by the plugin entry point: only the method
is consulted. -/
structure Request where
  method : String
  deriving Repr, DecidableEq

/-- An HTTP response as seen by the plugin: status code, URL, raw body
bytes and the opaque response id. -/
structure Response where
  code : Nat
  url : String
  body : List Nat
  id : Nat
  deriving Repr, DecidableEq

/-- A raw clamd response dict. `stream` is the value stored under the
key named stream when that key is present; the tuple elements are
strings or Python None. -/
structure DaemonResponse where
  stream : Option (List (Option String))
  deriving Repr, DecidableEq

/-- The `ScanResult` namedtuple of clamav.py. -/
structure ScanResult where
  found : Bool
  signature : Option String
  deriving Repr, DecidableEq

/-- An `Info` object as built by `_scan_http_response`. -/
structure Info where
  title : String
  desc : String
  response_id : Nat
  plugin_name : String
  url : String
  deriving Repr, DecidableEq

/-- Python exceptions that can escape the plugin code: a transport
error raised by `cd.instream`, or the AttributeError raised by
evaluating `result.found` when `_parse_scan_result` returned None. -/
inductive ScanError where
  | transport
  | attributeError
  deriving Repr, DecidableEq

/-- `clamav.METHODS`. -/
def METHODS : List String := ["GET"]

/-- `clamav.HTTP_CODES`. -/
def HTTP_CODES : List Nat := [200]

/-- Mutable plugin attributes set in `clamav.__init__`. -/
structure PluginState where
  already_analyzed : List String
  properly_configured : Option Bool
  clamd_socket : String
  deriving Repr, DecidableEq

/-- The state right after `clamav.__init__`. -/
def initState : PluginState :=
  { already_analyzed := []
    properly_configured := none
    clamd_socket := "/var/run/clamav/clamd.ctl" }

/-- The environment of one plugin call: the outcome of
`_connection_test` (ping succeeded and returned PONG), the behaviour
of `cd.instream` on a body, and the bloom-filter false-positive
oracle. -/
structure Env where
  connTest : Bool
  instream : List Nat → Except Unit DaemonResponse
  falsePos : String → Bool

/-- Membership test of the scalable bloom filter: true on every added
element, plus possible false positives. -/
def bloomContains (falsePos : String → Bool) (added : List String) (url : String) : Bool :=
  added.contains url || falsePos url

/-- Python str() of an optional string, as used by percent-s
interpolation: None prints as the four letters None. -/
def pyStr : Option String → String
  | none => "None"
  | some s => s

/-- `_parse_scan_result`: reads index 1 then index 0 of the stream
value; any KeyError/IndexError/TypeError is caught, logged, and the
function returns None (modelled as `none`). -/
def parse_scan_result (result : DaemonResponse) : Option ScanResult :=
  match result.stream with
  | none => none
  | some stream =>
    match stream[1]?, stream[0]? with
    | some signature, some status =>
      some { found := status == some "FOUND", signature := signature }
    | _, _ => none

/-- The description string interpolated in `_scan_http_response`. -/
def malware_desc (url : String) (signature : Option String) : String :=
  "ClamAV identified malware at URL: \"" ++ url ++
    "\", the matched signature name is \"" ++ pyStr signature ++ "\"."

/-- `_scan_http_response`: submits the body via instream, parses the
result and, on a FOUND verdict, appends one Info under the category
malware. Returns the appended `(category, Info)` pairs and the
exception escaping the call, if any. -/
def scan_http_response (env : Env) (response : Response) :
    List (String × Info) × Option ScanError :=
  match env.instream response.body with
  | Except.error _ => ([], some ScanError.transport)
  | Except.ok result_dict =>
    match parse_scan_result result_dict with
    | none => ([], some ScanError.attributeError)
    | some result =>
      if result.found then
        ([("malware",
            { title := "Malware identified"
              desc := malware_desc response.url result.signature
              response_id := response.id
              plugin_name := "clamav"
              url := response.url })], none)
      else
        ([], none)

/-- `_is_properly_configured`: returns the cached flag when present,
otherwise runs one `_connection_test`, caches and returns its result.
The third component counts the health checks performed (0 or 1). -/
def is_properly_configured (connTest : Bool) (st : PluginState) :
    Bool × PluginState × Nat :=
  match st.properly_configured with
  | some b => (b, st, 0)
  | none => (connTest, { st with properly_configured := some connTest }, 1)

/-- Observable effects of one `grep` call. -/
structure Effects where
  pings : Nat
  filterTests : Nat
  dispatches : List String
  findings : List (String × Info)
  deriving Repr, DecidableEq

/-- `grep`, the plugin entry point: config check, method/status gate,
dedup-filter test, mark-as-seen, then synchronous scan. Returns the
new plugin state, the observable effects, and the exception escaping
the call, if any. -/
def grep (env : Env) (st : PluginState) (request : Request) (response : Response) :
    PluginState × Effects × Option ScanError :=
  let probe := is_properly_configured env.connTest st
  if probe.1 = false then
    (probe.2.1, ⟨probe.2.2, 0, [], []⟩, none)
  else if !(METHODS.contains request.method) || !(HTTP_CODES.contains response.code) then
    (probe.2.1, ⟨probe.2.2, 0, [], []⟩, none)
  else if bloomContains env.falsePos probe.2.1.already_analyzed response.url then
    (probe.2.1, ⟨probe.2.2, 1, [], []⟩, none)
  else
    let st2 := { probe.2.1 with
                 already_analyzed := response.url :: probe.2.1.already_analyzed }
    let scanned := scan_http_response env response
    (st2, ⟨probe.2.2, 1, [response.url], scanned.1⟩, scanned.2)

/-- `set_options`: stores the configured socket path. -/
def set_options (st : PluginState) (clamd_socket : String) : PluginState :=
  { st with clamd_socket := clamd_socket }

/-- Run a sequence of `_is_properly_configured` calls, the i-th with
connection-test outcome `tests[i]`; collect per-call (returned value,
health checks performed) and the final state. -/
def probeRun (tests : List Bool) (st : PluginState) :
    List (Bool × Nat) × PluginState :=
  match tests with
  | [] => ([], st)
  | t :: rest =>
    let step := is_properly_configured t st
    let tail := probeRun rest step.2.1
    ((step.1, step.2.2) :: tail.1, tail.2)

/-- One string contains another as a substring. -/
def strContains (hay needle : String) : Prop :=
  ∃ pre post, hay = pre ++ needle ++ post

/-! Concrete fixtures used to exercise the model. -/

/-- A GET request. -/
def cReq : Request := { method := "GET" }

/-- A POST request (disallowed method). -/
def cReqPost : Request := { method := "POST" }

/-- A 200 response for a fixed URL. -/
def cResp : Response := { code := 200, url := "http://x/test", body := [1, 2, 3], id := 7 }

/-- Daemon reachable; instream answers with a malformed (empty dict)
response; no bloom false positives. -/
def cEnvMal : Env :=
  { connTest := true
    instream := fun _ => Except.ok { stream := none }
    falsePos := fun _ => false }

/-- Daemon reachable for the ping, but instream raises a transport
error; no bloom false positives. -/
def cEnvErr : Env :=
  { connTest := true
    instream := fun _ => Except.error ()
    falsePos := fun _ => false }

/-- Daemon reachable; instream reports the Eicar test signature; no
bloom false positives. -/
def cEnvFound : Env :=
  { connTest := true
    instream := fun _ => Except.ok { stream := some [some "FOUND", some "Eicar-Test-Signature"] }
    falsePos := fun _ => false }

/-- Daemon reachable; instream reports a clean stream; no bloom false
positives. -/
def cEnvClean : Env :=
  { connTest := true
    instream := fun _ => Except.ok { stream := some [some "OK", none] }
    falsePos := fun _ => false }

/-! Helper lemmas about the probe and the entry point. -/

/-- A resolved probe returns the cached flag, unchanged state, and
performs no health check. -/
theorem ipc_of_some (c : Bool) (st : PluginState) (b : Bool)
    (h : st.properly_configured = some b) :
    is_properly_configured c st = (b, st, 0) := by
  unfold is_properly_configured
  rw [h]

/-- An unresolved probe runs one health check, caches and returns its
outcome. -/
theorem ipc_of_none (c : Bool) (st : PluginState)
    (h : st.properly_configured = none) :
    is_properly_configured c st =
      (c, { st with properly_configured := some c }, 1) := by
  unfold is_properly_configured
  rw [h]

/-- The probe never touches the dedup filter. -/
theorem ipc_already_analyzed (c : Bool) (st : PluginState) :
    (is_properly_configured c st).2.1.already_analyzed = st.already_analyzed := by
  unfold is_properly_configured
  cases st.properly_configured <;> rfl

/-- Every grep invocation either skips (no dispatch, no findings, no
escaping exception, filter unchanged) or dispatches exactly once for
the response URL after marking it, with the effects of the scan. -/
theorem grep_cases (env : Env) (st : PluginState) (req : Request) (resp : Response) :
    ((grep env st req resp).2.1.dispatches = [] ∧
     (grep env st req resp).2.1.findings = [] ∧
     (grep env st req resp).2.2 = none ∧
     (grep env st req resp).1.already_analyzed = st.already_analyzed) ∨
    (bloomContains env.falsePos st.already_analyzed resp.url = false ∧
     (grep env st req resp).2.1.dispatches = [resp.url] ∧
     (grep env st req resp).2.1.findings = (scan_http_response env resp).1 ∧
     (grep env st req resp).2.2 = (scan_http_response env resp).2 ∧
     (grep env st req resp).1.already_analyzed = resp.url :: st.already_analyzed) := by
  have ha := ipc_already_analyzed env.connTest st
  by_cases h1 : (is_properly_configured env.connTest st).1 = false
  · exact Or.inl (by simp [grep, h1, ha])
  · by_cases h2 : (!METHODS.contains req.method || !HTTP_CODES.contains resp.code) = true
    · exact Or.inl (by simp_all [grep])
    · by_cases h3 : bloomContains env.falsePos st.already_analyzed resp.url = true
      · exact Or.inl (by simp_all [grep])
      · refine Or.inr ⟨Bool.eq_false_iff.mpr h3, ?_, ?_, ?_, ?_⟩ <;>
          simp_all [grep]

/-- A grep invocation dispatches at most one scan. -/
theorem grep_dispatch_le_one (env : Env) (st : PluginState) (req : Request) (resp : Response) :
    (grep env st req resp).2.1.dispatches.length ≤ 1 := by
  rcases grep_cases env st req resp with ⟨h, _⟩ | ⟨_, h, _⟩ <;> rw [h] <;> simp

/-- A URL already in the dedup filter is never dispatched. -/
theorem grep_skip_of_seen (env : Env) (st : PluginState) (req : Request) (resp : Response)
    (h : resp.url ∈ st.already_analyzed) :
    (grep env st req resp).2.1.dispatches = [] := by
  rcases grep_cases env st req resp with ⟨hd, _⟩ | ⟨hb, _⟩
  · exact hd
  · exfalso
    have hcontains : st.already_analyzed.contains resp.url = true :=
      List.elem_eq_true_of_mem h
    have : bloomContains env.falsePos st.already_analyzed resp.url = true := by
      unfold bloomContains
      rw [hcontains]
      rfl
    rw [hb] at this
    exact Bool.false_ne_true this

/-- If a grep invocation dispatched, the URL ends up marked. -/
theorem grep_marked_of_dispatch (env : Env) (st : PluginState) (req : Request) (resp : Response)
    (h : (grep env st req resp).2.1.dispatches ≠ []) :
    resp.url ∈ (grep env st req resp).1.already_analyzed := by
  rcases grep_cases env st req resp with ⟨hd, _⟩ | ⟨_, _, _, _, hs⟩
  · exact absurd hd h
  · rw [hs]
    exact List.mem_cons_self _ _

/-- If a grep invocation raised an escaping exception, it dispatched. -/
theorem grep_dispatch_of_error (env : Env) (st : PluginState) (req : Request) (resp : Response)
    (h : (grep env st req resp).2.2 ≠ none) :
    (grep env st req resp).2.1.dispatches ≠ [] := by
  rcases grep_cases env st req resp with ⟨_, _, he, _⟩ | ⟨_, hd, _⟩
  · exact absurd he h
  · rw [hd]
    simp

/-- When the probe reports enabled and all gates pass, grep marks the
URL and dispatches, returning exactly the scan's effects. -/
theorem grep_dispatch_eq (env : Env) (st : PluginState) (req : Request) (resp : Response)
    (hc : (is_properly_configured env.connTest st).1 = true)
    (hm : METHODS.contains req.method = true)
    (hs : HTTP_CODES.contains resp.code = true)
    (hb : bloomContains env.falsePos st.already_analyzed resp.url = false) :
    grep env st req resp =
      ({ (is_properly_configured env.connTest st).2.1 with
          already_analyzed := resp.url :: st.already_analyzed },
       ⟨(is_properly_configured env.connTest st).2.2, 1, [resp.url],
         (scan_http_response env resp).1⟩,
       (scan_http_response env resp).2) := by
  have ha := ipc_already_analyzed env.connTest st
  have h1 : ¬ ((is_properly_configured env.connTest st).1 = false) := by
    simp [hc]
  simp [grep, h1, hm, hs, ha, hb]
  exact ⟨List.mem_of_elem_eq_true hm, List.mem_of_elem_eq_true hs⟩

/-- On a state whose probe is already resolved, every later probe call
returns the cached flag with zero health checks and leaves the state
unchanged. -/
theorem probeRun_cached (tests : List Bool) (st : PluginState) (b : Bool)
    (h : st.properly_configured = some b) :
    probeRun tests st = (tests.map fun _ => (b, 0), st) := by
  induction tests with
  | nil => rfl
  | cons t rest ih => simp [probeRun, ipc_of_some t st b h, ih]

/-! Claim theorems. -/

/-- C1: evidence for the code bug. When the daemon answers with a
malformed response (an empty dict, no stream entry), the parser's
except branch returns None, and a grep invocation that reaches the
parse step terminates with an escaping AttributeError from evaluating
`result.found` on None — instead of the specified log-and-skip
no-verdict behaviour. No Finding is appended. -/
theorem c1_malformed_response_raises :
    parse_scan_result { stream := none } = none ∧
    (grep cEnvMal initState cReq cResp).2.2 = some ScanError.attributeError ∧
    (grep cEnvMal initState cReq cResp).2.1.findings = [] := by
  exact ⟨rfl, rfl, rfl⟩

/-- C2 counterexample: at a concrete input where the daemon client
raises a transport error during the scan dispatch, the exception
escapes the grep entry point (the escaping-exception component is not
none), refuting the claim that transport errors are caught inside the
coordinator. -/
theorem c2_transport_error_escapes :
    (grep cEnvErr initState cReq cResp).2.2 = some ScanError.transport ∧
    (grep cEnvErr initState cReq cResp).2.2 ≠ none := by
  exact ⟨rfl, by decide⟩

/-- C2 amended: a transport-level error raised by the daemon client
during the scan dispatch of a single resource propagates uncaught out
of the coordinator's entry point; that resource's scan is abandoned
(no Finding is appended, no retry) and its URL stays marked as
analyzed. -/
theorem c2_transport_error_propagates (env : Env) (st : PluginState)
    (req : Request) (resp : Response)
    (hc : (is_properly_configured env.connTest st).1 = true)
    (hm : METHODS.contains req.method = true)
    (hs : HTTP_CODES.contains resp.code = true)
    (hb : bloomContains env.falsePos st.already_analyzed resp.url = false)
    (ht : env.instream resp.body = Except.error ()) :
    (grep env st req resp).2.2 = some ScanError.transport ∧
    (grep env st req resp).2.1.findings = [] ∧
    resp.url ∈ (grep env st req resp).1.already_analyzed := by
  rw [grep_dispatch_eq env st req resp hc hm hs hb]
  unfold scan_http_response
  rw [ht]
  exact ⟨rfl, rfl, List.mem_cons_self _ _⟩

/-- C2 amended, witness at a concrete input. -/
theorem c2_transport_error_propagates_witness :
    (grep cEnvErr initState cReq cResp).2.2 = some ScanError.transport ∧
    (grep cEnvErr initState cReq cResp).2.1.findings = [] ∧
    cResp.url ∈ (grep cEnvErr initState cReq cResp).1.already_analyzed :=
  c2_transport_error_propagates cEnvErr initState cReq cResp rfl rfl rfl rfl rfl

/-- C3 counterexample: on the input with stream value (OK, sig) the
parse succeeds with found=false yet a non-None signature, refuting
the claimed invariant that found=false implies signature=None. -/
theorem c3_found_false_signature_counterexample :
    ∃ r, parse_scan_result { stream := some [some "OK", some "Eicar-Test-Signature"] } = some r ∧
      r.found = false ∧ r.signature ≠ none := by
  refine ⟨{ found := false, signature := some "Eicar-Test-Signature" }, rfl, rfl, by decide⟩

/-- C3 amended: the parser copies the second element of the stream
value verbatim into the signature field (it does not enforce
signature=None on clean verdicts), so found=false implies
signature=None exactly when the daemon supplied None as the second
element, as in the canonical clean response (OK, None). -/
theorem c3_signature_verbatim (d : DaemonResponse) (r : ScanResult)
    (h : parse_scan_result d = some r) :
    ∃ stream, d.stream = some stream ∧ stream[1]? = some r.signature := by
  cases hd : d.stream with
  | none => simp [parse_scan_result, hd] at h
  | some s =>
    refine ⟨s, rfl, ?_⟩
    cases h1 : s[1]? with
    | none => simp [parse_scan_result, hd, h1] at h
    | some sig =>
      cases h0 : s[0]? with
      | none => simp [parse_scan_result, hd, h1, h0] at h
      | some status =>
        simp only [parse_scan_result, hd, h1, h0, Option.some.injEq] at h
        rw [← h]

/-- C3 amended, witness at the canonical clean response. -/
theorem c3_signature_verbatim_witness :
    ∃ stream,
      ({ stream := some [some "OK", none] } : DaemonResponse).stream = some stream ∧
      stream[1]? = some (none : Option String) :=
  c3_signature_verbatim { stream := some [some "OK", none] }
    { found := false, signature := none } rfl

/-- C4: the parser round-trip — a FOUND stream tuple yields found=true
with the signature, the clean (OK, None) tuple yields found=false with
no signature, and the empty dict fails (the MalformedResponse path,
modelled as the parser producing no verdict). -/
theorem c4_parse_round_trip :
    parse_scan_result { stream := some [some "FOUND", some "Eicar-Test-Signature"] } =
      some { found := true, signature := some "Eicar-Test-Signature" } ∧
    parse_scan_result { stream := some [some "OK", none] } =
      some { found := false, signature := none } ∧
    parse_scan_result { stream := none } = none := by
  exact ⟨rfl, rfl, rfl⟩

/-- C5: idempotent dedup — two grep invocations with the identical
(request, response) pair dispatch at most one scan for its URL in
total; and exactly one when scanning is enabled, the method/status
gates pass and the filter reports no false positive for the URL
(the coordinator tests membership, marks the URL, then dispatches). -/
theorem c5_idempotent_dedup (env : Env) (st : PluginState) (req : Request) (resp : Response) :
    ((grep env st req resp).2.1.dispatches.length +
      (grep env (grep env st req resp).1 req resp).2.1.dispatches.length ≤ 1) ∧
    ((is_properly_configured env.connTest st).1 = true →
     METHODS.contains req.method = true →
     HTTP_CODES.contains resp.code = true →
     bloomContains env.falsePos st.already_analyzed resp.url = false →
     (grep env st req resp).2.1.dispatches.length +
       (grep env (grep env st req resp).1 req resp).2.1.dispatches.length = 1) := by
  constructor
  · by_cases hd : (grep env st req resp).2.1.dispatches = []
    · rw [hd]
      simpa using grep_dispatch_le_one env (grep env st req resp).1 req resp
    · have hmem := grep_marked_of_dispatch env st req resp hd
      rw [grep_skip_of_seen env (grep env st req resp).1 req resp hmem]
      simpa using grep_dispatch_le_one env st req resp
  · intro hc hm hs hb
    have he := grep_dispatch_eq env st req resp hc hm hs hb
    have hmem : resp.url ∈ (grep env st req resp).1.already_analyzed := by
      rw [he]
      exact List.mem_cons_self _ _
    rw [grep_skip_of_seen env (grep env st req resp).1 req resp hmem, he]
    rfl

/-- C5 witness: concretely, two identical calls starting from the
initial state with a FOUND-reporting daemon dispatch exactly once. -/
theorem c5_idempotent_dedup_witness :
    (grep cEnvFound initState cReq cResp).2.1.dispatches.length +
      (grep cEnvFound (grep cEnvFound initState cReq cResp).1 cReq cResp).2.1.dispatches.length
      = 1 :=
  (c5_idempotent_dedup cEnvFound initState cReq cResp).2 rfl rfl rfl rfl

/-- C6: the configuration probe resolves exactly once — starting from
an unresolved state, the first enablement check performs exactly one
health check and returns its outcome; every subsequent check performs
zero health checks and returns the cached value; the state moves from
unresolved to resolved once, and any resolved state is returned
unchanged by further checks (never back to unresolved). -/
theorem c6_probe_resolves_once (t : Bool) (rest : List Bool) (st : PluginState)
    (h : st.properly_configured = none) :
    (probeRun (t :: rest) st).1 = (t, 1) :: (rest.map fun _ => (t, 0)) ∧
    (probeRun (t :: rest) st).2 = { st with properly_configured := some t } ∧
    (∀ (st2 : PluginState) (b c : Bool), st2.properly_configured = some b →
      is_properly_configured c st2 = (b, st2, 0)) := by
  have hstep := ipc_of_none t st h
  have hcached := probeRun_cached rest { st with properly_configured := some t } t rfl
  refine ⟨?_, ?_, fun st2 b c hb => ipc_of_some c st2 b hb⟩ <;>
    simp [probeRun, hstep, hcached]

/-- C6 witness: three successive checks from the initial state. -/
theorem c6_probe_resolves_once_witness :
    (probeRun [true, false, false] initState).1 = [(true, 1), (true, 0), (true, 0)] ∧
    (probeRun [true, false, false] initState).2 =
      { initState with properly_configured := some true } ∧
    is_properly_configured false { initState with properly_configured := some true } =
      (true, { initState with properly_configured := some true }, 0) := by
  have h := c6_probe_resolves_once true [false, false] initState rfl
  exact ⟨h.1, h.2.1, h.2.2 _ true false rfl⟩

/-- C7: method/status gate — when the request method is disallowed or
the response status code is disallowed, grep returns without testing
the dedup filter, without marking the URL as seen, and without
dispatching a scan or appending findings. -/
theorem c7_method_status_gate (env : Env) (st : PluginState) (req : Request) (resp : Response)
    (h : METHODS.contains req.method = false ∨ HTTP_CODES.contains resp.code = false) :
    (grep env st req resp).1.already_analyzed = st.already_analyzed ∧
    (grep env st req resp).2.1.filterTests = 0 ∧
    (grep env st req resp).2.1.dispatches = [] ∧
    (grep env st req resp).2.1.findings = [] := by
  have ha := ipc_already_analyzed env.connTest st
  have hprop : req.method ∉ METHODS ∨ resp.code ∉ HTTP_CODES := by
    rcases h with h | h
    · refine Or.inl fun hm => ?_
      rw [show METHODS.contains req.method = true from List.elem_eq_true_of_mem hm] at h
      exact Bool.noConfusion h
    · refine Or.inr fun hm => ?_
      rw [show HTTP_CODES.contains resp.code = true from List.elem_eq_true_of_mem hm] at h
      exact Bool.noConfusion h
  by_cases h1 : (is_properly_configured env.connTest st).1 = false
  · refine ⟨?_, ?_, ?_, ?_⟩ <;> simp [grep, h1, ha]
  · refine ⟨?_, ?_, ?_, ?_⟩ <;> simp [grep, h1, ha, hprop]

/-- C7 witness: a POST request is gated out. -/
theorem c7_method_status_gate_witness :
    (grep cEnvFound initState cReqPost cResp).1.already_analyzed =
      initState.already_analyzed ∧
    (grep cEnvFound initState cReqPost cResp).2.1.filterTests = 0 ∧
    (grep cEnvFound initState cReqPost cResp).2.1.dispatches = [] ∧
    (grep cEnvFound initState cReqPost cResp).2.1.findings = [] :=
  c7_method_status_gate cEnvFound initState cReqPost cResp (Or.inl rfl)

/-- The interpolated description contains the resource URL, and the
matched signature name whenever one is present. -/
theorem malware_desc_contains (url : String) (sig : Option String) :
    strContains (malware_desc url sig) url ∧
    ∀ s, sig = some s → strContains (malware_desc url sig) s := by
  constructor
  · refine ⟨"ClamAV identified malware at URL: \"",
      "\", the matched signature name is \"" ++ pyStr sig ++ "\".", ?_⟩
    unfold malware_desc
    simp [String.append_assoc]
  · intro s hs
    subst hs
    refine ⟨"ClamAV identified malware at URL: \"" ++ url ++
      "\", the matched signature name is \"", "\".", ?_⟩
    unfold malware_desc
    simp [pyStr, String.append_assoc]

/-- C8: reporting gate — on a dispatch whose daemon response parses
successfully, a clean verdict appends nothing to the knowledge base,
and a found verdict appends exactly one entry under the category
malware, whose Info carries the scanned response's URL and whose
description contains both the resource URL and the matched signature
name. -/
theorem c8_reporting_gate (env : Env) (st : PluginState) (req : Request) (resp : Response)
    (raw : DaemonResponse) (r : ScanResult)
    (hc : (is_properly_configured env.connTest st).1 = true)
    (hm : METHODS.contains req.method = true)
    (hs : HTTP_CODES.contains resp.code = true)
    (hb : bloomContains env.falsePos st.already_analyzed resp.url = false)
    (hok : env.instream resp.body = Except.ok raw)
    (hp : parse_scan_result raw = some r) :
    (r.found = false → (grep env st req resp).2.1.findings = []) ∧
    (r.found = true → ∃ i,
      (grep env st req resp).2.1.findings = [("malware", i)] ∧
      i.url = resp.url ∧ strContains i.desc resp.url ∧
      ∀ s, r.signature = some s → strContains i.desc s) := by
  rw [grep_dispatch_eq env st req resp hc hm hs hb]
  constructor
  · intro hf
    simp [scan_http_response, hok, hp, hf]
  · intro hf
    refine ⟨{ title := "Malware identified"
              desc := malware_desc resp.url r.signature
              response_id := resp.id
              plugin_name := "clamav"
              url := resp.url }, ?_, rfl, ?_, ?_⟩
    · simp [scan_http_response, hok, hp, hf]
    · exact (malware_desc_contains resp.url r.signature).1
    · exact (malware_desc_contains resp.url r.signature).2

/-- C8 witness: both gate directions at concrete inputs — the clean
daemon leaves the knowledge base untouched, the FOUND daemon appends
exactly one malware entry with the URL and signature in its
description. -/
theorem c8_reporting_gate_witness :
    (grep cEnvClean initState cReq cResp).2.1.findings = [] ∧
    ∃ i, (grep cEnvFound initState cReq cResp).2.1.findings = [("malware", i)] ∧
      i.url = cResp.url ∧ strContains i.desc cResp.url ∧
      ∀ s, (some "Eicar-Test-Signature" : Option String) = some s → strContains i.desc s := by
  constructor
  · exact (c8_reporting_gate cEnvClean initState cReq cResp
      { stream := some [some "OK", none] } { found := false, signature := none }
      rfl rfl rfl rfl rfl rfl).1 rfl
  · exact (c8_reporting_gate cEnvFound initState cReq cResp
      { stream := some [some "FOUND", some "Eicar-Test-Signature"] }
      { found := true, signature := some "Eicar-Test-Signature" }
      rfl rfl rfl rfl rfl rfl).2 rfl

/-- C9: the URL is added to the dedup filter before the dispatch, so
any invocation that dispatched — in particular one that ended in a
transport error or in the malformed-response AttributeError — leaves
the URL recorded as analyzed, and no later invocation on the same URL
in the same process ever dispatches it again. -/
theorem c9_failed_scan_never_retried (env : Env) (st : PluginState)
    (req : Request) (resp : Response)
    (h : (grep env st req resp).2.1.dispatches ≠ [] ∨ (grep env st req resp).2.2 ≠ none) :
    resp.url ∈ (grep env st req resp).1.already_analyzed ∧
    ∀ (env2 : Env) (req2 : Request) (resp2 : Response), resp2.url = resp.url →
      (grep env2 (grep env st req resp).1 req2 resp2).2.1.dispatches = [] := by
  have hd : (grep env st req resp).2.1.dispatches ≠ [] := by
    rcases h with h | h
    · exact h
    · exact grep_dispatch_of_error env st req resp h
  have hmem := grep_marked_of_dispatch env st req resp hd
  refine ⟨hmem, fun env2 req2 resp2 hurl => ?_⟩
  refine grep_skip_of_seen env2 _ req2 resp2 ?_
  rw [hurl]
  exact hmem

/-- C9 witness: a scan that failed with a transport error leaves the
URL marked, and a later call with a working daemon does not dispatch
it again. -/
theorem c9_failed_scan_never_retried_witness :
    cResp.url ∈ (grep cEnvErr initState cReq cResp).1.already_analyzed ∧
    (grep cEnvFound (grep cEnvErr initState cReq cResp).1 cReq cResp).2.1.dispatches = [] := by
  have h := c9_failed_scan_never_retried cEnvErr initState cReq cResp (Or.inr (by decide))
  exact ⟨h.1, h.2 cEnvFound cReq cResp rfl⟩

/-- C10: set_options stores only the socket path — the dedup filter
and the cached configuration flag are untouched, and once the probe
has resolved, an enablement check after a socket change performs no
health check and returns the same cached value. -/
theorem c10_set_options_frame (st : PluginState) (path : String) (ct b : Bool) :
    (set_options st path).already_analyzed = st.already_analyzed ∧
    (set_options st path).properly_configured = st.properly_configured ∧
    (set_options st path).clamd_socket = path ∧
    (st.properly_configured = some b →
      is_properly_configured ct (set_options st path) = (b, set_options st path, 0)) := by
  refine ⟨rfl, rfl, rfl, fun h => ipc_of_some ct (set_options st path) b ?_⟩
  rw [show (set_options st path).properly_configured = st.properly_configured from rfl, h]

/-- C10 witness: after the probe resolved to enabled, changing the
socket path keeps the filter and flag and triggers no health check. -/
theorem c10_set_options_frame_witness :
    (set_options { initState with properly_configured := some true }
        "/tmp/other.sock").already_analyzed =
      ({ initState with properly_configured := some true } : PluginState).already_analyzed ∧
    (set_options { initState with properly_configured := some true }
        "/tmp/other.sock").properly_configured =
      ({ initState with properly_configured := some true } : PluginState).properly_configured ∧
    (set_options { initState with properly_configured := some true }
        "/tmp/other.sock").clamd_socket = "/tmp/other.sock" ∧
    is_properly_configured false
        (set_options { initState with properly_configured := some true } "/tmp/other.sock") =
      (true, set_options { initState with properly_configured := some true } "/tmp/other.sock",
        0) := by
  have h := c10_set_options_frame { initState with properly_configured := some true }
    "/tmp/other.sock" false true
  exact ⟨h.1, h.2.1, h.2.2.1, h.2.2.2 rfl⟩

end Clamav
